import Mathlib

/-!
# Verification of the pwasm-abi derive generator

Shallow embedding of `derive/src/lib.rs` of the `pwasm-abi` repository:
the selector hashing convention, the generated endpoint (`dispatch` /
`dispatch_ctor`), the generated client and its builder, and the JSON
manifest writer.  External collaborators (the word-stream decoder, the
sink encoder, the call primitive, the filesystem) are abstracted as
records of functions, exactly at the boundary where the source calls
into them.
-/

namespace PwasmAbi

/-! ## Keccak-256

Modelled from the spec (§4.2): the selector hash is the first 4 bytes of
a 256-bit Keccak digest (the original Keccak with the 0x01 domain byte,
as used by the Ethereum ABI convention) of the canonical signature.  The
hashing itself lives in the `tiny_keccak` crate and the normalizer in
`items.rs`, which is not among the sources; the permutation below is the
standard Keccak-f[1600] over `Nat` lanes masked to 64 bits.
-/

/-- The lane modulus 2^64. -/
def laneMod : Nat := 18446744073709551616

/-- Rotate a 64-bit lane left by `n` (0 ≤ n < 64). -/
def rotl (x n : Nat) : Nat :=
  (((x <<< n) % laneMod) ||| (x >>> (64 - n)))

/-- All-ones 64-bit mask. -/
def mask64 : Nat := 18446744073709551615

/-- Lane at coordinates (x, y) in the 5×5 Keccak state, stored as `x + 5*y`. -/
def lane (s : List Nat) (x y : Nat) : Nat := s.getD (x + 5 * y) 0

/-- Keccak θ step. -/
def theta (s : List Nat) : List Nat :=
  let c := (List.range 5).map (fun x =>
    lane s x 0 ^^^ lane s x 1 ^^^ lane s x 2 ^^^ lane s x 3 ^^^ lane s x 4)
  let d := (List.range 5).map (fun x =>
    c.getD ((x + 4) % 5) 0 ^^^ rotl (c.getD ((x + 1) % 5) 0) 1)
  (List.range 25).map (fun i => s.getD i 0 ^^^ d.getD (i % 5) 0)

/-- The π orbit of lane coordinates starting at (1, 0):
each step maps (x, y) to (y, 2x+3y mod 5). -/
def rhoOrbit : Nat → Nat × Nat
  | 0 => (1, 0)
  | t + 1 =>
    let p := rhoOrbit t
    (p.2, (2 * p.1 + 3 * p.2) % 5)

/-- Rotation offsets r[x,y], indexed `x + 5*y`: the t-th triangular number
(t+1)(t+2)/2 mod 64 at the t-th lane of the π orbit, 0 at the origin. -/
def rotOffsets : List Nat :=
  (List.range 24).foldl
    (fun tab t =>
      let p := rhoOrbit t
      tab.set (p.1 + 5 * p.2) ((t + 1) * (t + 2) / 2 % 64))
    (List.replicate 25 0)

/-- Combined ρ and π steps: B[y, 2x+3y] = rotl(A[x,y], r[x,y]), expressed by
inverting the index map (x = X + 3Y mod 5, y = X for output position (X, Y)). -/
def rhoPi (s : List Nat) : List Nat :=
  (List.range 25).map (fun j =>
    let bigX := j % 5
    let bigY := j / 5
    let x := (bigX + 3 * bigY) % 5
    let y := bigX
    rotl (lane s x y) (rotOffsets.getD (x + 5 * y) 0))

/-- Keccak χ step. -/
def chi (b : List Nat) : List Nat :=
  (List.range 25).map (fun j =>
    let bigX := j % 5
    let bigY := j / 5
    lane b bigX bigY ^^^
      ((lane b ((bigX + 1) % 5) bigY ^^^ mask64) &&& lane b ((bigX + 2) % 5) bigY))

/-- One step of the degree-8 LFSR (x^8 + x^6 + x^5 + x^4 + 1) generating
the rc bit sequence. -/
def rcStep (r : Nat) : Nat :=
  ((r <<< 1) ^^^ ((r >>> 7) * 0x71)) &&& 0xff

/-- The LFSR register after t steps from 1; rc(t) is its low bit. -/
def rcByte (t : Nat) : Nat := (List.range t).foldl (fun r _ => rcStep r) 1

/-- Round constant of round i: bit rc(j + 7i) placed at position 2^j - 1,
for j = 0..6. -/
def roundConstant (i : Nat) : Nat :=
  (List.range 7).foldl
    (fun acc j => acc + (rcByte (j + 7 * i) % 2) * 2 ^ (2 ^ j - 1)) 0

/-- Round constants for ι, one per round. -/
def iotaConstants : List Nat := (List.range 24).map roundConstant

/-- Keccak ι step: xor the round constant into lane (0,0). -/
def iotaStep (s : List Nat) (rc : Nat) : List Nat :=
  match s with
  | [] => []
  | a :: rest => (a ^^^ rc) :: rest

/-- One Keccak-f round. -/
def keccakRound (s : List Nat) (rc : Nat) : List Nat :=
  iotaStep (chi (rhoPi (theta s))) rc

/-- The Keccak-f[1600] permutation: 24 rounds. -/
def keccakF (s : List Nat) : List Nat :=
  iotaConstants.foldl keccakRound s

/-- Interpret (up to) 8 bytes as a little-endian 64-bit lane. -/
def leLane (bs : List Nat) : Nat :=
  bs.foldr (fun b acc => acc * 256 + b) 0

/-- Absorb one 136-byte (rate) block into the state, then permute. -/
def absorbBlock (s : List Nat) (block : List Nat) : List Nat :=
  keccakF ((List.range 25).map (fun i =>
    if i < 17 then s.getD i 0 ^^^ leLane ((block.drop (8 * i)).take 8)
    else s.getD i 0))

/-- Keccak pad10*1 with the 0x01 domain byte (original Keccak, not SHA-3). -/
def pad101 (m : List Nat) : List Nat :=
  let padlen := 136 - m.length % 136
  if padlen = 1 then m ++ [0x81]
  else m ++ [0x01] ++ List.replicate (padlen - 2) 0 ++ [0x80]

/-- Little-endian bytes of a 64-bit lane. -/
def laneBytes (x : Nat) : List Nat :=
  (List.range 8).map (fun i => (x >>> (8 * i)) % 256)

/-- Keccak-256 digest (32 bytes) of a byte sequence. -/
def keccak256 (m : List Nat) : List Nat :=
  let p := pad101 m
  let s := (List.range (p.length / 136)).foldl
    (fun st i => absorbBlock st ((p.drop (136 * i)).take 136))
    (List.replicate 25 0)
  ((List.range 4).map (fun i => laneBytes (s.getD i 0))).flatten

/-- Bytes of an ASCII string (the canonical-signature alphabet is ASCII, where
UTF-8 bytes coincide with code points). -/
def asciiBytes (s : String) : List Nat := s.data.map Char.toNat

/-- Big-endian u32 from four byte values, as computed by the generated
`dispatch` (`derive/src/lib.rs:404-407`): casts to u32 then shifts. -/
def beU32 (b0 b1 b2 b3 : Nat) : Nat :=
  (b0 <<< 24) + (b1 <<< 16) + (b2 <<< 8) + b3

/-- Modelled from the spec (§4.2): the selector of a canonical signature
string is the first 4 bytes of its Keccak-256 digest, read big-endian.
(The hashing code, `items.rs` + `tiny_keccak`, is not among the sources.) -/
def keccakSelector (sig : String) : Nat :=
  let d := keccak256 (asciiBytes sig)
  beU32 (d.getD 0 0) (d.getD 1 0) (d.getD 2 0) (d.getD 3 0)

/-- Modelled from the spec (§4.2): the canonical signature string is the
item's name followed by the parenthesized comma-joined canonical type
names of its arguments. -/
def canonicalSignature (name : String) (tys : List String) : String :=
  name ++ "(" ++ String.intercalate "," tys ++ ")"

/-! ## The interface model

`items.rs` (not among the sources) builds the model consumed by
`derive/src/lib.rs`; the fields below are exactly those the generator
reads: `signature.name`, `signature.arguments` (pattern/type pairs),
`signature.return_types`, `signature.hash`, `signature.is_payable`.
Argument and return types are kept abstract as a type parameter `T`. -/

/-- A callable method signature, as consumed by the generators. -/
structure Signature (T : Type) where
  name : String
  arguments : List (String × T)
  return_types : List T
  hash : Nat
  is_payable : Bool
  deriving DecidableEq, Repr

/-- An event item, as consumed by the generators. -/
structure EventItem (T : Type) where
  name : String
  arguments : List (String × T)
  deriving DecidableEq, Repr

/-- An interface item.  The generators match `Item::Signature` and
`Item::Event` and drop everything else (`_ => None`); `other` stands for
those remaining variants. -/
inductive Item (T : Type) where
  | signature : Signature T → Item T
  | event : EventItem T → Item T
  | other : Item T
  deriving DecidableEq, Repr

/-- The interface model: name, optional constructor, ordered items
(spec §3). -/
structure Interface (T : Type) where
  name : String
  constructor : Option (Signature T)
  items : List (Item T)
  deriving DecidableEq, Repr

/-- The argument types of a signature in declaration order
(`signature.arguments.iter().map(|&(_, ref ty)| ...)`). -/
def argTypes {T : Type} (sig : Signature T) : List T :=
  sig.arguments.map Prod.snd

/-- Modelled from the spec (§4.2): the Signature Normalizer annotates each
signature with the selector of its canonical signature (its implementation,
`items.rs`, is not among the sources). -/
def normalizeSignature (name : String) (args : List (String × String))
    (rets : List String) (payable : Bool) : Signature String :=
  { name := name
    arguments := args
    return_types := rets
    hash := keccakSelector (canonicalSignature name (args.map Prod.snd))
    is_payable := payable }

/-! ## The generated endpoint (`generate_eth_endpoint`)

`derive/src/lib.rs:308-423`.  The generated `dispatch`/`dispatch_ctor`
call into two external collaborators, `pwasm_abi::eth::Stream` and
`pwasm_abi::eth::Sink`, and into the trait implementation `inner`; all
three are abstracted as records of functions.  Every `panic!`/`expect`
in the generated code is modelled as an `Except.error` carrying the
spec's name (§7) for that failure. -/

/-- The word-stream decoder collaborator: `Stream::new(payload)` and
`stream.pop::<Ty>()` (which advances the stream and can fail). `S` is the
stream state, `V` the decoded-value type, `T` the type of ABI types. -/
structure StreamOps (T V S : Type) where
  new : List Nat → S
  pop : T → S → Option (V × S)

/-- The sink encoder collaborator: `Sink::new(n)`, `sink.push(v)`,
`sink.finalize_panicking()` and `sink.drain_to(&mut buf)`; per the spec
(§6) draining appends the accumulated bytes `drain k` to the buffer. -/
structure SinkOps (V K : Type) where
  new : Nat → K
  push : K → V → K
  finalize_panicking : K → List Nat
  drain : K → List Nat

/-- Runtime dispatch failures, named as in the spec's taxonomy (§7).
`InvalidPayload` is the generated `panic!("Invalid abi invoke")`,
`UnknownSelector` the `panic!("Invalid method signature")`,
`ValueNotAccepted` the non-payable value check panic, and
`ArgumentDecodeError` the `expect("argument decoding failed")`. -/
inductive DispatchError where
  | InvalidPayload
  | UnknownSelector
  | ValueNotAccepted
  | ArgumentDecodeError
  deriving DecidableEq, Repr

/-- Decode one argument per declared type, left to right, threading the
stream state; `none` models the first failing `expect`. -/
def popArgs {T V S : Type} (stream : StreamOps T V S) :
    List T → S → Option (List V × S)
  | [], s => some ([], s)
  | t :: ts, s =>
    match stream.pop t s with
    | none => none
    | some (v, s1) =>
      match popArgs stream ts s1 with
      | none => none
      | some (vs, s2) => some (v :: vs, s2)

/-- The body of a generated method branch after the value check
(`derive/src/lib.rs:342-360`): decode the arguments from a fresh stream
over the method payload, invoke `inner.<name>(args)` (which may mutate
`inner` and returns the result), then either encode the result through a
sink of capacity `return_types.len()` or return the empty byte vector. -/
def decodeInvokeEncode {T V S K I : Type} (stream : StreamOps T V S)
    (sink : SinkOps V K) (handler : I → String → List V → I × V)
    (sig : Signature T) (inner : I) (method_payload : List Nat) :
    Except DispatchError (I × List Nat) :=
  match popArgs stream (argTypes sig) (stream.new method_payload) with
  | none => .error .ArgumentDecodeError
  | some (args, _) =>
    let r := handler inner sig.name args
    if sig.return_types.isEmpty then
      .ok (r.1, [])
    else
      .ok (r.1, sink.finalize_panicking
        (sink.push (sink.new sig.return_types.length) r.2))

/-- One generated `match` arm (`derive/src/lib.rs:339-362`): the value
check `check_value_code` is emitted first when the signature is not
payable, then the decode-invoke-encode body. -/
def runBranch {T V S K I : Type} (stream : StreamOps T V S)
    (sink : SinkOps V K) (handler : I → String → List V → I × V)
    (sig : Signature T) (eth_value : Nat) (inner : I)
    (method_payload : List Nat) : Except DispatchError (I × List Nat) :=
  if sig.is_payable = false ∧ 0 < eth_value then
    .error .ValueNotAccepted
  else
    decodeInvokeEncode stream sink handler sig inner method_payload

/-- The non-constructor method signatures, in declaration order: the
generator's `filter_map` keeping `Item::Signature`
(`derive/src/lib.rs:328-366`). -/
def signatures {T : Type} (items : List (Item T)) : List (Signature T) :=
  items.filterMap fun it =>
    match it with
    | .signature s => some s
    | _ => none

/-- The generated `match method_id` with one arm per signature in
declaration order and a wildcard arm mapping to `UnknownSelector`. -/
def matchMethod {T V S K I : Type} (stream : StreamOps T V S)
    (sink : SinkOps V K) (handler : I → String → List V → I × V)
    (eth_value : Nat) (inner : I) :
    List (Signature T) → Nat → List Nat → Except DispatchError (I × List Nat)
  | [], _, _ => .error .UnknownSelector
  | sig :: rest, method_id, method_payload =>
    if method_id = sig.hash then
      runBranch stream sink handler sig eth_value inner method_payload
    else
      matchMethod stream sink handler eth_value inner rest method_id method_payload

/-- The generated `dispatch` (`derive/src/lib.rs:399-415`): reject
payloads shorter than 4 bytes, read the method id from the first 4 bytes
big-endian, and route the remainder. -/
def dispatch {T V S K I : Type} (stream : StreamOps T V S)
    (sink : SinkOps V K) (handler : I → String → List V → I × V)
    (intf : Interface T) (eth_value : Nat) (inner : I)
    (payload : List Nat) : Except DispatchError (I × List Nat) :=
  if payload.length < 4 then
    .error .InvalidPayload
  else
    let method_id := beU32 (payload.getD 0 0) (payload.getD 1 0)
      (payload.getD 2 0) (payload.getD 3 0)
    let method_payload := payload.drop 4
    matchMethod stream sink handler eth_value inner
      (signatures intf.items) method_id method_payload

/-- The generated `dispatch_ctor` (`derive/src/lib.rs:314-326, 419-421`):
empty body when no constructor is declared; otherwise the payable value
check, then decoding the constructor arguments from a fresh stream over
the whole payload, then `self.inner.constructor(args)`.  It returns the
(possibly mutated) `inner` and produces no byte output. -/
def dispatch_ctor {T V S I : Type} (stream : StreamOps T V S)
    (ctorHandler : I → List V → I) (intf : Interface T)
    (eth_value : Nat) (inner : I) (payload : List Nat) :
    Except DispatchError I :=
  match intf.constructor with
  | none => .ok inner
  | some sig =>
    if sig.is_payable = false ∧ 0 < eth_value then
      .error .ValueNotAccepted
    else
      match popArgs stream (argTypes sig) (stream.new payload) with
      | none => .error .ArgumentDecodeError
      | some (args, _) => .ok (ctorHandler inner args)

/-! ## The generated client (`generate_eth_client`)

`derive/src/lib.rs:188-306`. -/

/-- The generated builder-style client value holder
(`derive/src/lib.rs:274-299`). -/
structure ClientState (A : Type) where
  gas : Option Nat
  address : A
  value : Option Nat
  deriving DecidableEq, Repr

/-- The generated `new(address)`: gas and value unset. -/
def ClientState.new {A : Type} (address : A) : ClientState A :=
  { gas := none, address := address, value := none }

/-- The generated `gas(mut self, gas)` builder: sets the gas field. -/
def ClientState.withGas {A : Type} (c : ClientState A) (g : Nat) : ClientState A :=
  { c with gas := some g }

/-- The generated `value(mut self, val)` builder: sets the value field. -/
def ClientState.withValue {A : Type} (c : ClientState A) (v : Nat) : ClientState A :=
  { c with value := some v }

/-- Client-side failures: `CallFailed` is the
`expect("Call failed; todo: allow handling inside contracts")`,
`OutputDecodeFailed` the `expect("failed decode call output")`,
`EventNotCallable` the `panic!("cannot use event in client interface")`,
and `Unimplemented` the `unimplemented!()` constructor stub. -/
inductive ClientError where
  | CallFailed
  | OutputDecodeFailed
  | EventNotCallable
  | Unimplemented
  deriving DecidableEq, Repr

/-- The external call primitive `pwasm_ethereum::call(gas, address, value,
payload, result_buf)`: writes into the caller's buffer and can fail;
modelled as returning the final buffer contents, `none` on failure. -/
structure CallOps (A : Type) where
  call : Nat → A → Nat → List Nat → List Nat → Option (List Nat)

/-- The 4 selector bytes pushed at the front of a client payload
(`derive/src/lib.rs:238-241`): `(hash >> k) as u8`, big-endian order. -/
def selectorBytes (h : Nat) : List Nat :=
  [(h >>> 24) % 256, (h >>> 16) % 256, (h >>> 8) % 256, h % 256]

/-- Push each argument into the sink, in declaration order
(`sink.push(#pat);` repeated). -/
def pushArgs {V K : Type} (sink : SinkOps V K) : K → List V → K
  | k, [] => k
  | k, v :: vs => pushArgs sink (sink.push k v) vs

/-- The generated client method body (`derive/src/lib.rs:231-255`):
build the payload (4 selector bytes, then `sink.drain_to(&mut payload)`),
pick the result buffer (empty when the method has no return type,
32 zero bytes otherwise), invoke the call primitive with
`gas.unwrap_or(200000)`, the address and `value.unwrap_or(0)`, and
decode one result value from the output when the method returns one. -/
def clientMethodCall {T V S K A : Type} (stream : StreamOps T V S)
    (sink : SinkOps V K) (ext : CallOps A) (c : ClientState A)
    (sig : Signature T) (args : List V) : Except ClientError (Option V) :=
  let payload := selectorBytes sig.hash
  let snk := pushArgs sink (sink.new args.length) args
  let payload := payload ++ sink.drain snk
  let result : List Nat :=
    match sig.return_types with
    | [] => []
    | _ :: _ => List.replicate 32 0
  match ext.call (c.gas.getD 200000) c.address (c.value.getD 0) payload result with
  | none => .error .CallFailed
  | some out =>
    match sig.return_types with
    | [] => .ok none
    | t :: _ =>
      match stream.pop t (stream.new out) with
      | none => .error .OutputDecodeFailed
      | some (v, _) => .ok (some v)

/-- The client call contract as the spec words it (§4.4): a payload of the
selector as 4 big-endian bytes followed by the sink-encoded arguments in
declaration order; the call primitive invoked with the configured gas
(implementation default when unset), address and value (zero when unset);
exactly one result value decoded via the stream collaborator when the
return-type list is non-empty. -/
def clientMethodCallSpec {T V S K A : Type} (stream : StreamOps T V S)
    (sink : SinkOps V K) (ext : CallOps A) (c : ClientState A)
    (sig : Signature T) (args : List V) : Except ClientError (Option V) :=
  match ext.call (c.gas.getD 200000) c.address (c.value.getD 0)
      (selectorBytes sig.hash ++ sink.drain (pushArgs sink (sink.new args.length) args))
      (match sig.return_types with
       | [] => []
       | _ :: _ => List.replicate 32 0) with
  | none => .error .CallFailed
  | some out =>
    match sig.return_types with
    | [] => .ok none
    | t :: _ =>
      match stream.pop t (stream.new out) with
      | none => .error .OutputDecodeFailed
      | some (v, _) => .ok (some v)

/-- The client method the generator emits for an `Event` item
(`derive/src/lib.rs:257-266`): its whole body is
`panic!("cannot use event in client interface")`. -/
def clientEventCall {T V : Type} (_ev : EventItem T) (_args : List V) :
    Except ClientError (Option V) :=
  .error .EventNotCallable

/-- The client constructor stub (`derive/src/lib.rs:189-199`): its whole
body is `unimplemented!()`. -/
def clientCtorStub {T V : Type} (_sig : Signature T) (_args : List V) :
    Except ClientError (Option V) :=
  .error .Unimplemented

/-! ## The JSON manifest writer (`write_json_abi`)

`derive/src/lib.rs:172-186`.  The filesystem and the serializer
(`serde_json::to_writer_pretty`) are external collaborators; paths are
modelled as their component lists (each `PathBuf::push` appends one). -/

/-- Manifest write failures; each is an `expect` panic in
`write_json_abi`, fatal to the compilation pass. -/
inductive AbiWriteError where
  | DirCreateFailed
  | FileCreateFailed
  | JsonWriteFailed
  deriving DecidableEq, Repr

/-- The filesystem / serializer collaborator: `fs::create_dir_all`,
`fs::File::create` and `serde_json::to_writer_pretty`; `H` is the open
file handle type, `D` the serialized document type. -/
structure FsOps (H D : Type) where
  create_dir_all : List String → Option Unit
  fileCreate : List String → Option H
  to_writer_pretty : H → D → Option Unit

/-- The manifest writer (`derive/src/lib.rs:172-186`): start from
`CARGO_TARGET_DIR` (default "."), push "target" then "json", create the
directory, push "<name>.json", create the file and pretty-print the ABI
document into it; every failure is an `expect` panic.  `abiOf` stands for
the `json::Abi` conversion (`json.rs`, not among the sources). -/
def write_json_abi {T H D : Type} (fs : FsOps H D) (abiOf : Interface T → D)
    (cargoTargetDir : Option String) (intf : Interface T) :
    Except AbiWriteError Unit :=
  let target0 := [cargoTargetDir.getD "."]
  let target1 := target0 ++ ["target"]
  let target2 := target1 ++ ["json"]
  match fs.create_dir_all target2 with
  | none => .error .DirCreateFailed
  | some _ =>
    let target3 := target2 ++ [intf.name ++ ".json"]
    match fs.fileCreate target3 with
    | none => .error .FileCreateFailed
    | some f =>
      match fs.to_writer_pretty f (abiOf intf) with
      | none => .error .JsonWriteFailed
      | some _ => .ok ()

/-- The manifest path as the spec words it: `<target_dir>/json/<Name>.json`
under the fixed output-directory convention
`target_dir = $CARGO_TARGET_DIR (default ".") / "target"`. -/
def manifestPathSpec (cargoTargetDir : Option String)
    (interfaceName : String) : List String :=
  [cargoTargetDir.getD ".", "target"] ++ ["json"] ++ [interfaceName ++ ".json"]

/-- The manifest writer as the spec words it (§4.5): create the manifest
directory, then write the pretty-printed document at the spec's path;
any failure is fatal. -/
def write_json_abi_spec {T H D : Type} (fs : FsOps H D)
    (abiOf : Interface T → D) (cargoTargetDir : Option String)
    (intf : Interface T) : Except AbiWriteError Unit :=
  match fs.create_dir_all [cargoTargetDir.getD ".", "target", "json"] with
  | none => .error .DirCreateFailed
  | some _ =>
    match fs.fileCreate (manifestPathSpec cargoTargetDir intf.name) with
    | none => .error .FileCreateFailed
    | some f =>
      match fs.to_writer_pretty f (abiOf intf) with
      | none => .error .JsonWriteFailed
      | some _ => .ok ()

/-- The `eth_abi` pass around the manifest write
(`derive/src/lib.rs:84-109`): `write_json_abi(&intf)` runs before code
generation, so a manifest failure aborts the pass and no artifact is
produced; `gen` stands for the endpoint/client generation step. -/
def eth_abi_pass {T H D G : Type} (fs : FsOps H D) (abiOf : Interface T → D)
    (cargoTargetDir : Option String) (intf : Interface T)
    (gen : Interface T → G) : Except AbiWriteError G :=
  match write_json_abi fs abiOf cargoTargetDir intf with
  | .error e => .error e
  | .ok _ => .ok (gen intf)

/-! ## Concrete instantiations used by the witnesses -/

/-- A concrete stream: state is the remaining bytes, each pop takes one. -/
def natStreamOps : StreamOps Nat Nat (List Nat) where
  new := fun p => p
  pop := fun _t s =>
    match s with
    | [] => none
    | b :: rest => some (b, rest)

/-- A concrete sink: state is the accumulated byte list. -/
def natSinkOps : SinkOps Nat (List Nat) where
  new := fun _ => []
  push := fun k v => k ++ [v]
  finalize_panicking := fun k => k
  drain := fun k => k

/-- A concrete trait implementation: state is a counter, every method adds
the argument sum and returns it. -/
def natHandler : Nat → String → List Nat → Nat × Nat :=
  fun i _name args => (i + args.sum, args.sum)

/-- A concrete constructor implementation. -/
def natCtorHandler : Nat → List Nat → Nat :=
  fun i args => i + args.sum

/-- A concrete call primitive that succeeds and leaves the buffer as is. -/
def natCallOps : CallOps Nat where
  call := fun _gas _addr _value _payload buf => some buf

/-- A non-payable method with one argument and one return type. -/
def sigStore : Signature Nat :=
  { name := "store", arguments := [("x", 0)], return_types := [0],
    hash := 0x01020304, is_payable := false }

/-- A payable method with no arguments and no return types. -/
def sigPing : Signature Nat :=
  { name := "ping", arguments := [], return_types := [],
    hash := 5, is_payable := true }

/-- A non-payable constructor with one argument. -/
def ctorSig : Signature Nat :=
  { name := "constructor", arguments := [("x", 0)], return_types := [],
    hash := 0, is_payable := false }

/-- A concrete interface with two methods, an event and a constructor. -/
def demoInterface : Interface Nat :=
  { name := "Demo", constructor := some ctorSig,
    items := [.signature sigStore, .event ⟨"Ev", []⟩, .signature sigPing] }

/-- A concrete interface without a constructor. -/
def demoInterfaceNoCtor : Interface Nat :=
  { name := "Demo2", constructor := none, items := [.signature sigStore] }

/-- A filesystem stub on which every operation succeeds. -/
def okFsOps : FsOps Unit Unit where
  create_dir_all := fun _ => some ()
  fileCreate := fun _ => some ()
  to_writer_pretty := fun _ _ => some ()

/-- A filesystem stub on which directory creation fails. -/
def badDirFsOps : FsOps Unit Unit where
  create_dir_all := fun _ => none
  fileCreate := fun _ => some ()
  to_writer_pretty := fun _ _ => some ()

/-! ## Helper lemmas -/

theorem laneBytes_length (x : Nat) : (laneBytes x).length = 8 := by
  simp [laneBytes]

theorem keccak256_length (m : List Nat) : (keccak256 m).length = 32 := by
  unfold keccak256
  rw [List.length_flatten, List.map_map]
  have : (List.length ∘ fun i =>
      laneBytes (((List.range ((pad101 m).length / 136)).foldl
        (fun st i => absorbBlock st (((pad101 m).drop (136 * i)).take 136))
        (List.replicate 25 0)).getD i 0)) = fun _ => 8 := by
    funext i
    simp [Function.comp_def, laneBytes_length]
  rw [this]
  decide

theorem laneBytes_mem_lt (x : Nat) : ∀ b ∈ laneBytes x, b < 256 := by
  simp only [laneBytes, List.mem_map, List.mem_range]
  rintro b ⟨i, _, rfl⟩
  exact Nat.mod_lt _ (by norm_num)

theorem keccak256_mem_lt (m : List Nat) : ∀ b ∈ keccak256 m, b < 256 := by
  unfold keccak256
  intro b hb
  simp only [List.mem_flatten, List.mem_map, List.mem_range] at hb
  obtain ⟨l, ⟨i, _, rfl⟩, hbl⟩ := hb
  exact laneBytes_mem_lt _ b hbl

theorem getD_lt_of_forall_lt (l : List Nat) (i : Nat)
    (h : ∀ b ∈ l, b < 256) : l.getD i 0 < 256 := by
  rcases Nat.lt_or_ge i l.length with hi | hi
  · rw [List.getD_eq_getElem l 0 hi]
    exact h _ (l.getElem_mem hi)
  · rw [List.getD_eq_default l 0 hi]
    norm_num

theorem beU32_lt (b0 b1 b2 b3 : Nat) (h0 : b0 < 256) (h1 : b1 < 256)
    (h2 : b2 < 256) (h3 : b3 < 256) : beU32 b0 b1 b2 b3 < 4294967296 := by
  unfold beU32
  simp only [Nat.shiftLeft_eq]
  norm_num
  omega

theorem keccakSelector_lt (sig : String) : keccakSelector sig < 4294967296 := by
  unfold keccakSelector
  exact beU32_lt _ _ _ _
    (getD_lt_of_forall_lt _ _ (keccak256_mem_lt _))
    (getD_lt_of_forall_lt _ _ (keccak256_mem_lt _))
    (getD_lt_of_forall_lt _ _ (keccak256_mem_lt _))
    (getD_lt_of_forall_lt _ _ (keccak256_mem_lt _))

set_option maxRecDepth 100000 in
theorem transfer_selector_value :
    keccakSelector "transfer(address,uint256)" = 0xa9059cbb := by decide

/-- C1: every callable item's selector is the first 4 bytes of the 256-bit
Keccak digest of its canonical signature, read as a big-endian unsigned
32-bit integer (the digest has 32 bytes and the selector fits in 32 bits);
the canonical signature "transfer(address,uint256)" yields 0xa9059cbb; and
hashing is deterministic. -/
theorem selector_is_keccak_first4_be :
    (∀ (name : String) (args : List (String × String)) (rets : List String)
        (payable : Bool),
      (normalizeSignature name args rets payable).hash =
        beU32 ((keccak256 (asciiBytes (canonicalSignature name (args.map Prod.snd)))).getD 0 0)
          ((keccak256 (asciiBytes (canonicalSignature name (args.map Prod.snd)))).getD 1 0)
          ((keccak256 (asciiBytes (canonicalSignature name (args.map Prod.snd)))).getD 2 0)
          ((keccak256 (asciiBytes (canonicalSignature name (args.map Prod.snd)))).getD 3 0))
  ∧ (∀ m : List Nat, (keccak256 m).length = 32)
  ∧ (∀ sig : String, keccakSelector sig < 4294967296)
  ∧ keccakSelector "transfer(address,uint256)" = 0xa9059cbb
  ∧ (∀ s t : String, s = t → keccakSelector s = keccakSelector t) := by
  refine ⟨fun name args rets payable => rfl, keccak256_length, keccakSelector_lt,
    transfer_selector_value, fun s t h => h ▸ rfl⟩

/-- C1 witness: the theorem applied at concrete inputs. -/
theorem selector_is_keccak_first4_be_witness :
    keccakSelector "transfer(address,uint256)" = 0xa9059cbb
  ∧ keccakSelector "foo()" = keccakSelector "foo()" :=
  ⟨selector_is_keccak_first4_be.2.2.2.1,
   selector_is_keccak_first4_be.2.2.2.2 "foo()" "foo()" rfl⟩

theorem runBranch_ne_invalidPayload {T V S K I : Type}
    (stream : StreamOps T V S) (sink : SinkOps V K)
    (handler : I → String → List V → I × V) (sig : Signature T)
    (eth_value : Nat) (inner : I) (mp : List Nat) :
    runBranch stream sink handler sig eth_value inner mp ≠
      .error .InvalidPayload := by
  unfold runBranch decodeInvokeEncode
  split
  · simp
  · split
    · simp
    · split <;> simp

theorem matchMethod_ne_invalidPayload {T V S K I : Type}
    (stream : StreamOps T V S) (sink : SinkOps V K)
    (handler : I → String → List V → I × V) (eth_value : Nat) (inner : I)
    (sigs : List (Signature T)) (mid : Nat) (mp : List Nat) :
    matchMethod stream sink handler eth_value inner sigs mid mp ≠
      .error .InvalidPayload := by
  induction sigs with
  | nil => simp [matchMethod]
  | cons sig rest ih =>
    unfold matchMethod
    split
    · exact runBranch_ne_invalidPayload stream sink handler sig eth_value inner mp
    · exact ih

theorem dispatch_cons4 {T V S K I : Type} (stream : StreamOps T V S)
    (sink : SinkOps V K) (handler : I → String → List V → I × V)
    (intf : Interface T) (eth_value : Nat) (inner : I)
    (b0 b1 b2 b3 : Nat) (rest : List Nat) :
    dispatch stream sink handler intf eth_value inner
        (b0 :: b1 :: b2 :: b3 :: rest) =
      matchMethod stream sink handler eth_value inner
        (signatures intf.items) (beU32 b0 b1 b2 b3) rest := by
  rw [dispatch, if_neg (by simp)]
  simp only [List.getD_cons_zero, List.getD_cons_succ, List.drop_succ_cons,
    List.drop_zero]

/-- C2: dispatch fails with InvalidPayload exactly on payloads shorter
than 4 bytes; on longer payloads it never raises InvalidPayload, parses
the first 4 bytes big-endian as the method id and routes exactly the
remaining bytes. -/
theorem dispatch_payload_contract {T V S K I : Type}
    (stream : StreamOps T V S) (sink : SinkOps V K)
    (handler : I → String → List V → I × V) (intf : Interface T)
    (eth_value : Nat) (inner : I) :
    (∀ payload : List Nat, payload.length < 4 →
      dispatch stream sink handler intf eth_value inner payload =
        .error .InvalidPayload)
  ∧ (∀ payload : List Nat, 4 ≤ payload.length →
      dispatch stream sink handler intf eth_value inner payload ≠
        .error .InvalidPayload)
  ∧ (∀ b0 b1 b2 b3 : Nat, ∀ rest : List Nat,
      dispatch stream sink handler intf eth_value inner
          (b0 :: b1 :: b2 :: b3 :: rest) =
        matchMethod stream sink handler eth_value inner
          (signatures intf.items)
          (((b0 * 256 + b1) * 256 + b2) * 256 + b3) rest) := by
  refine ⟨fun payload h => ?_, fun payload h => ?_, fun b0 b1 b2 b3 rest => ?_⟩
  · simp [dispatch, h]
  · rw [dispatch, if_neg (by omega)]
    exact matchMethod_ne_invalidPayload _ _ _ _ _ _ _ _
  · rw [dispatch_cons4]
    have : beU32 b0 b1 b2 b3 = ((b0 * 256 + b1) * 256 + b2) * 256 + b3 := by
      unfold beU32
      simp only [Nat.shiftLeft_eq]
      ring
    rw [this]

/-- C2 witness: concrete payloads of length 0 and 3 are rejected, a
length-5 payload is not rejected as InvalidPayload. -/
theorem dispatch_payload_contract_witness :
    dispatch natStreamOps natSinkOps natHandler demoInterface 0 0 [1, 2, 3] =
      .error .InvalidPayload
  ∧ dispatch natStreamOps natSinkOps natHandler demoInterface 0 0 [] =
      .error .InvalidPayload
  ∧ dispatch natStreamOps natSinkOps natHandler demoInterface 0 0
      [1, 2, 3, 4, 5] ≠ .error .InvalidPayload :=
  ⟨(dispatch_payload_contract natStreamOps natSinkOps natHandler
      demoInterface 0 0).1 [1, 2, 3] (by decide),
   (dispatch_payload_contract natStreamOps natSinkOps natHandler
      demoInterface 0 0).1 [] (by decide),
   (dispatch_payload_contract natStreamOps natSinkOps natHandler
      demoInterface 0 0).2.1 [1, 2, 3, 4, 5] (by decide)⟩

theorem matchMethod_not_mem {T V S K I : Type} (stream : StreamOps T V S)
    (sink : SinkOps V K) (handler : I → String → List V → I × V)
    (eth_value : Nat) (inner : I) (sigs : List (Signature T)) (mid : Nat)
    (mp : List Nat) (h : mid ∉ sigs.map Signature.hash) :
    matchMethod stream sink handler eth_value inner sigs mid mp =
      .error .UnknownSelector := by
  induction sigs with
  | nil => simp [matchMethod]
  | cons sig rest ih =>
    simp only [List.map_cons, List.mem_cons, not_or] at h
    rw [matchMethod, if_neg h.1]
    exact ih h.2

theorem matchMethod_mem {T V S K I : Type} (stream : StreamOps T V S)
    (sink : SinkOps V K) (handler : I → String → List V → I × V)
    (eth_value : Nat) (inner : I) (sigs : List (Signature T))
    (sig : Signature T) (mp : List Nat)
    (hnd : (sigs.map Signature.hash).Nodup) (hmem : sig ∈ sigs) :
    matchMethod stream sink handler eth_value inner sigs sig.hash mp =
      runBranch stream sink handler sig eth_value inner mp := by
  induction sigs with
  | nil => cases hmem
  | cons s rest ih =>
    rcases List.mem_cons.mp hmem with rfl | hmem'
    · rw [matchMethod, if_pos rfl]
    · have hne : sig.hash ≠ s.hash := by
        intro hEq
        have : s.hash ∈ rest.map Signature.hash :=
          hEq ▸ List.mem_map_of_mem Signature.hash hmem'
        exact (List.nodup_cons.mp hnd).1 this
      rw [matchMethod, if_neg hne]
      exact ih (List.nodup_cons.mp hnd).2 hmem'

/-- C3: the routing table accepts exactly the selectors of the
non-constructor method signatures: a 4-byte id equal to the selector of
one of them (selectors being distinct) routes to that signature's branch,
and every other id fails with UnknownSelector. -/
theorem dispatch_routing_table {T V S K I : Type}
    (stream : StreamOps T V S) (sink : SinkOps V K)
    (handler : I → String → List V → I × V) (intf : Interface T)
    (eth_value : Nat) (inner : I) :
    (∀ b0 b1 b2 b3 : Nat, ∀ rest : List Nat,
      beU32 b0 b1 b2 b3 ∉ (signatures intf.items).map Signature.hash →
      dispatch stream sink handler intf eth_value inner
          (b0 :: b1 :: b2 :: b3 :: rest) =
        .error .UnknownSelector)
  ∧ (∀ sig : Signature T, sig ∈ signatures intf.items →
      ((signatures intf.items).map Signature.hash).Nodup →
      ∀ b0 b1 b2 b3 : Nat, ∀ rest : List Nat,
      beU32 b0 b1 b2 b3 = sig.hash →
      dispatch stream sink handler intf eth_value inner
          (b0 :: b1 :: b2 :: b3 :: rest) =
        runBranch stream sink handler sig eth_value inner rest) := by
  constructor
  · intro b0 b1 b2 b3 rest h
    rw [dispatch_cons4]
    exact matchMethod_not_mem _ _ _ _ _ _ _ _ h
  · intro sig hmem hnd b0 b1 b2 b3 rest hmid
    rw [dispatch_cons4, hmid]
    exact matchMethod_mem _ _ _ _ _ _ _ _ hnd hmem

/-- C3 witness: in the demo interface (selectors 0x01020304 and 5), the
id 0x01020304 routes to the store branch, and the id 0x00000063 is
rejected with UnknownSelector. -/
theorem dispatch_routing_table_witness :
    dispatch natStreamOps natSinkOps natHandler demoInterface 0 0
        [1, 2, 3, 4, 9] =
      runBranch natStreamOps natSinkOps natHandler sigStore 0 0 [9]
  ∧ dispatch natStreamOps natSinkOps natHandler demoInterface 0 0
        [0, 0, 0, 99] =
      .error .UnknownSelector :=
  ⟨(dispatch_routing_table natStreamOps natSinkOps natHandler
      demoInterface 0 0).2 sigStore (by decide) (by decide) 1 2 3 4 [9]
      (by decide),
   (dispatch_routing_table natStreamOps natSinkOps natHandler
      demoInterface 0 0).1 0 0 0 99 [] (by decide)⟩

/-- C4: a branch for a non-payable signature fails with ValueNotAccepted
whenever the ambient transferred value is nonzero, before any argument
is decoded (the failure holds for every stream collaborator); with zero
value the check passes and the decode-invoke-encode body is reached; for
a payable signature no value check is performed. -/
theorem value_check_policy {T V S K I : Type} (stream : StreamOps T V S)
    (sink : SinkOps V K) (handler : I → String → List V → I × V)
    (sig : Signature T) (inner : I) :
    (∀ eth_value : Nat, ∀ mp : List Nat, sig.is_payable = false →
      0 < eth_value →
      runBranch stream sink handler sig eth_value inner mp =
        .error .ValueNotAccepted)
  ∧ (∀ mp : List Nat,
      runBranch stream sink handler sig 0 inner mp =
        decodeInvokeEncode stream sink handler sig inner mp)
  ∧ (∀ eth_value : Nat, ∀ mp : List Nat, sig.is_payable = true →
      runBranch stream sink handler sig eth_value inner mp =
        decodeInvokeEncode stream sink handler sig inner mp) := by
  refine ⟨fun eth_value mp hpay hpos => ?_, fun mp => ?_,
    fun eth_value mp hpay => ?_⟩
  · rw [runBranch, if_pos ⟨hpay, hpos⟩]
  · rw [runBranch, if_neg (by simp)]
  · rw [runBranch, if_neg (by simp [hpay])]

/-- C4 witness: the non-payable store method rejects value 1 and, with
value 0, reaches decoding; the payable ping method accepts value 7. -/
theorem value_check_policy_witness :
    runBranch natStreamOps natSinkOps natHandler sigStore 1 0 [7] =
      .error .ValueNotAccepted
  ∧ runBranch natStreamOps natSinkOps natHandler sigStore 0 0 [7] =
      decodeInvokeEncode natStreamOps natSinkOps natHandler sigStore 0 [7]
  ∧ runBranch natStreamOps natSinkOps natHandler sigPing 7 0 [] =
      decodeInvokeEncode natStreamOps natSinkOps natHandler sigPing 0 [] :=
  ⟨(value_check_policy natStreamOps natSinkOps natHandler sigStore 0).1
      1 [7] rfl (by decide),
   (value_check_policy natStreamOps natSinkOps natHandler sigStore 0).2.1 [7],
   (value_check_policy natStreamOps natSinkOps natHandler sigPing 0).2.2
      7 [] rfl⟩

/-- C5: once a branch is reached with the value check passing and the
arguments decoded, a signature with return types yields the handler
result encoded through the sink collaborator (capacity
`return_types.len()`, one push, then finalize), and a signature without
return types yields the empty byte sequence. -/
theorem routed_result_encoding {T V S K I : Type}
    (stream : StreamOps T V S) (sink : SinkOps V K)
    (handler : I → String → List V → I × V) (sig : Signature T)
    (eth_value : Nat) (inner : I) (mp : List Nat) (args : List V) (s' : S)
    (hval : sig.is_payable = true ∨ eth_value = 0)
    (hdec : popArgs stream (argTypes sig) (stream.new mp) = some (args, s')) :
    (sig.return_types ≠ [] →
      runBranch stream sink handler sig eth_value inner mp =
        .ok ((handler inner sig.name args).1,
          sink.finalize_panicking
            (sink.push (sink.new sig.return_types.length)
              (handler inner sig.name args).2)))
  ∧ (sig.return_types = [] →
      runBranch stream sink handler sig eth_value inner mp =
        .ok ((handler inner sig.name args).1, [])) := by
  have hrb : runBranch stream sink handler sig eth_value inner mp =
      decodeInvokeEncode stream sink handler sig inner mp := by
    rcases hval with hpay | hz
    · rw [runBranch, if_neg (by simp [hpay])]
    · subst hz
      rw [runBranch, if_neg (by simp)]
  constructor
  · intro hne
    rw [hrb, decodeInvokeEncode, hdec]
    simp [hne]
  · intro heq
    rw [hrb, decodeInvokeEncode, hdec]
    simp [heq]

/-- C5 witness: the store method (one return type) encodes its result
through the sink; the ping method (no return types) returns the empty
byte sequence. -/
theorem routed_result_encoding_witness :
    runBranch natStreamOps natSinkOps natHandler sigStore 0 0 [7] =
      .ok (7, [7])
  ∧ runBranch natStreamOps natSinkOps natHandler sigPing 3 0 [] =
      .ok (0, []) :=
  ⟨((routed_result_encoding natStreamOps natSinkOps natHandler sigStore
      0 0 [7] [7] [] (Or.inr rfl) (by decide)).1 (by decide)).trans (by rfl),
   ((routed_result_encoding natStreamOps natSinkOps natHandler sigPing
      3 0 [] [] [] (Or.inl rfl) (by decide)).2 rfl).trans (by rfl)⟩

/-- C6: the generated constructor entry point is a no-op (returning the
implementation unchanged) when no constructor is declared; with a
declared constructor it applies the payable value check before decoding
(rejecting nonzero value for a non-payable constructor), decodes the
arguments from the whole payload in declaration order, invokes the
constructor handler and produces no byte output. -/
theorem ctor_dispatch_contract {T V S I : Type} (stream : StreamOps T V S)
    (ctorHandler : I → List V → I) (eth_value : Nat) (inner : I) :
    (∀ intf : Interface T, intf.constructor = none → ∀ payload : List Nat,
      dispatch_ctor stream ctorHandler intf eth_value inner payload =
        .ok inner)
  ∧ (∀ intf : Interface T, ∀ sig : Signature T,
      intf.constructor = some sig →
      ((sig.is_payable = false → 0 < eth_value → ∀ payload : List Nat,
        dispatch_ctor stream ctorHandler intf eth_value inner payload =
          .error .ValueNotAccepted)
      ∧ ((sig.is_payable = true ∨ eth_value = 0) →
          ∀ (payload : List Nat) (args : List V) (s' : S),
          popArgs stream (argTypes sig) (stream.new payload) =
            some (args, s') →
          dispatch_ctor stream ctorHandler intf eth_value inner payload =
            .ok (ctorHandler inner args)))) := by
  constructor
  · intro intf h payload
    rw [dispatch_ctor, h]
  · intro intf sig h
    constructor
    · intro hpay hpos payload
      rw [dispatch_ctor, h]
      simp only
      rw [if_pos ⟨hpay, hpos⟩]
    · intro hval payload args s' hdec
      rw [dispatch_ctor, h]
      simp only
      have hcond : ¬(sig.is_payable = false ∧ 0 < eth_value) := by
        rcases hval with hp | hz
        · simp [hp]
        · simp [hz]
      rw [if_neg hcond, hdec]

/-- C6 witness: no constructor makes the entry point a no-op; the demo
non-payable constructor rejects value 1 and, with value 0, decodes its
argument and invokes the handler. -/
theorem ctor_dispatch_contract_witness :
    dispatch_ctor natStreamOps natCtorHandler demoInterfaceNoCtor 0 0 [1, 2] =
      .ok 0
  ∧ dispatch_ctor natStreamOps natCtorHandler demoInterface 1 0 [3] =
      .error .ValueNotAccepted
  ∧ dispatch_ctor natStreamOps natCtorHandler demoInterface 0 10 [3] =
      .ok 13 :=
  ⟨(ctor_dispatch_contract natStreamOps natCtorHandler 0 0).1
      demoInterfaceNoCtor rfl [1, 2],
   ((ctor_dispatch_contract natStreamOps natCtorHandler 1 0).2
      demoInterface ctorSig rfl).1 rfl (by decide) [3],
   (((ctor_dispatch_contract natStreamOps natCtorHandler 0 10).2
      demoInterface ctorSig rfl).2 (Or.inr rfl) [3] [3] []
      (by decide)).trans (by rfl)⟩

/-- C7: a generated client method refines the spec's contract: the payload
is the selector as 4 big-endian bytes (which, the hash being a u32,
re-read big-endian give back the hash) followed by the sink-encoded
arguments in declaration order; the call primitive receives the
configured address, the configured gas defaulting to 200000 and the
configured value defaulting to zero; and a non-empty return-type list
means exactly one result value is decoded from the call output. -/
theorem client_call_contract {T V S K A : Type} (stream : StreamOps T V S)
    (sink : SinkOps V K) (ext : CallOps A) (c : ClientState A)
    (sig : Signature T) (args : List V) :
    clientMethodCall stream sink ext c sig args =
      clientMethodCallSpec stream sink ext c sig args
  ∧ (sig.hash < 4294967296 →
      beU32 ((selectorBytes sig.hash).getD 0 0) ((selectorBytes sig.hash).getD 1 0)
        ((selectorBytes sig.hash).getD 2 0) ((selectorBytes sig.hash).getD 3 0) =
        sig.hash)
  ∧ (∀ a : A, clientMethodCall stream sink ext (ClientState.new a) sig args =
      clientMethodCall stream sink ext
        { gas := some 200000, address := a, value := some 0 } sig args)
  ∧ (∀ (t : T) (ts : List T) (out : List Nat) (v : V) (s2 : S),
      sig.return_types = t :: ts →
      ext.call (c.gas.getD 200000) c.address (c.value.getD 0)
        (selectorBytes sig.hash ++
          sink.drain (pushArgs sink (sink.new args.length) args))
        (List.replicate 32 0) = some out →
      stream.pop t (stream.new out) = some (v, s2) →
      clientMethodCall stream sink ext c sig args = .ok (some v)) := by
  refine ⟨rfl, fun hlt => ?_, fun a => rfl, fun t ts out v s2 hret hcall hpop => ?_⟩
  · simp only [selectorBytes, List.getD_cons_zero, List.getD_cons_succ]
    unfold beU32
    simp only [Nat.shiftLeft_eq, Nat.shiftRight_eq_div_pow]
    norm_num
    omega
  · simp only [clientMethodCall, hret, hcall, hpop]

/-- C7 witness: the store method called through the concrete client with
unset gas and value invokes the call primitive and decodes one value. -/
theorem client_call_contract_witness :
    clientMethodCall natStreamOps natSinkOps natCallOps (ClientState.new 7)
        sigStore [42] = .ok (some 0)
  ∧ beU32 ((selectorBytes sigStore.hash).getD 0 0)
      ((selectorBytes sigStore.hash).getD 1 0)
      ((selectorBytes sigStore.hash).getD 2 0)
      ((selectorBytes sigStore.hash).getD 3 0) = sigStore.hash :=
  ⟨(client_call_contract natStreamOps natSinkOps natCallOps
      (ClientState.new 7) sigStore [42]).2.2.2 0 [] (List.replicate 32 0) 0
      (List.replicate 31 0) rfl rfl (by decide),
   (client_call_contract natStreamOps natSinkOps natCallOps
      (ClientState.new 7) sigStore [42]).2.1 (by decide)⟩

/-- C8: the client method emitted for an event fails unconditionally
(events are not remotely callable), and the client constructor stub
fails unconditionally as well; neither ever returns a success. -/
theorem client_event_and_ctor_fail {T V : Type} (ev : EventItem T)
    (sig : Signature T) :
    (∀ args : List V, clientEventCall ev args = .error .EventNotCallable
      ∧ ∀ r : Option V, clientEventCall ev args ≠ .ok r)
  ∧ (∀ args : List V, clientCtorStub sig args = .error .Unimplemented
      ∧ ∀ r : Option V, clientCtorStub sig args ≠ .ok r) := by
  refine ⟨fun args => ⟨rfl, fun r h => ?_⟩, fun args => ⟨rfl, fun r h => ?_⟩⟩
  · exact Except.noConfusion h
  · exact Except.noConfusion h

/-- C8 witness: the theorem applied to a concrete event and constructor. -/
theorem client_event_and_ctor_fail_witness :
    clientEventCall (⟨"Ev", []⟩ : EventItem Nat) ([] : List Nat) =
      .error .EventNotCallable
  ∧ clientCtorStub ctorSig ([3] : List Nat) = .error .Unimplemented :=
  ⟨((client_event_and_ctor_fail (V := Nat) (⟨"Ev", []⟩ : EventItem Nat)
      ctorSig).1 []).1,
   ((client_event_and_ctor_fail (V := Nat) (⟨"Ev", []⟩ : EventItem Nat)
      ctorSig).2 [3]).1⟩

/-- C9: the manifest writer refines the spec's contract: it writes the
interface's pretty-printed document at
`<target_dir>/json/<InterfaceName>.json` where
`target_dir = $CARGO_TARGET_DIR (default ".") / "target"`, a path
deterministic in the interface name; and any directory-creation or write
failure aborts the whole compilation pass (no artifact is produced). -/
theorem manifest_write_contract {T H D G : Type} (fs : FsOps H D)
    (abiOf : Interface T → D) (ctd : Option String) (intf : Interface T)
    (gen : Interface T → G) :
    write_json_abi fs abiOf ctd intf = write_json_abi_spec fs abiOf ctd intf
  ∧ manifestPathSpec ctd intf.name =
      [ctd.getD ".", "target", "json", intf.name ++ ".json"]
  ∧ (∀ e : AbiWriteError, write_json_abi fs abiOf ctd intf = .error e →
      eth_abi_pass fs abiOf ctd intf gen = .error e)
  ∧ (fs.create_dir_all [ctd.getD ".", "target", "json"] = none →
      eth_abi_pass fs abiOf ctd intf gen = .error .DirCreateFailed) := by
  refine ⟨rfl, rfl, fun e h => ?_, fun h => ?_⟩
  · rw [eth_abi_pass, h]
  · have hw : write_json_abi fs abiOf ctd intf = .error .DirCreateFailed := by
      unfold write_json_abi
      simp only [List.singleton_append, List.cons_append, List.nil_append]
      rw [h]
    rw [eth_abi_pass, hw]

/-- C9 witness: with a filesystem whose directory creation fails, the
whole pass aborts with the directory-creation failure. -/
theorem manifest_write_contract_witness :
    eth_abi_pass badDirFsOps (fun _ => ()) none demoInterface (fun _ => ()) =
      .error .DirCreateFailed :=
  (manifest_write_contract badDirFsOps (fun _ => ()) none demoInterface
    (fun _ => ())).2.2.2 rfl

/-- C10: the client value holder's builders have exact frame effects:
`new(address)` leaves gas and value unset and stores the address;
`gas(g)` sets only the gas field; `value(v)` sets only the value field. -/
theorem client_builder_frame {A : Type} (a : A) (g v : Nat)
    (c : ClientState A) :
    ((ClientState.new a).gas = none ∧ (ClientState.new a).value = none
      ∧ (ClientState.new a).address = a)
  ∧ ((c.withGas g).gas = some g ∧ (c.withGas g).address = c.address
      ∧ (c.withGas g).value = c.value)
  ∧ ((c.withValue v).value = some v ∧ (c.withValue v).address = c.address
      ∧ (c.withValue v).gas = c.gas) :=
  ⟨⟨rfl, rfl, rfl⟩, ⟨rfl, rfl, rfl⟩, ⟨rfl, rfl, rfl⟩⟩

end PwasmAbi
